
import Mathlib

/-!
Verification of the state-synchronization engine of the `labeler` repository.

The development shallowly embeds the persistence core:
* `src/services/frontend/src/lib/adapters/types.ts` — the data model
  (`PersistedState`, `SessionMetadata`, `SyncResult`, config types);
* `LocalStorageAdapter` (`src/unnamed/part_006`) — the on-device adapter over a
  key-value store with an explicit session-id index;
* `BackendAdapter` (`src/unnamed/part_008`) — the remote adapter; the remote
  HTTP service itself is not part of the frontend sources, so its handlers are
  modelled from the spec where noted;
* `StateSync` (`src/services/frontend/src/lib/statePersistence.ts`, second
  document) — the orchestrator: strategy ordering, retries, conflict
  resolution, the pending-sync queue and merge/list/delete semantics.

JavaScript `Date` values are modelled as `Nat` epoch milliseconds.  The JSON
wire/storage image of a record keeps every `Date` field as a `String`
(`JSON.stringify` serializes a `Date` through `toISOString`, and the adapters
rebuild dates with `new Date(s)`); this encode/decode pair is lossless at
millisecond precision, which `decodeDate_encodeDate` below establishes for the
executable model of that pair.
-/

namespace Labeler

/-- Digit character back to its numeric value; models the numeric read-back of
a decimal character (`c.charCodeAt(0) - 48`). -/
def charToDigit (c : Char) : Nat := c.toNat - 48

/-- Little-endian decimal digits of `n`, with explicit fuel for structural
termination; `natDigitsLE n n` yields the digits of `n`. -/
def natDigitsLE : Nat → Nat → List Nat
  | 0, _ => []
  | fuel + 1, n => if n = 0 then [] else n % 10 :: natDigitsLE fuel (n / 10)

/-- Value of a little-endian digit list. -/
def valueLE : List Nat → Nat
  | [] => 0
  | d :: ds => d + 10 * valueLE ds

/-- Serialized form of a `Date` (epoch milliseconds): a decimal string.  This
is the executable stand-in for `Date.prototype.toJSON` (ISO-8601), which is
likewise a lossless textual encoding of the millisecond timestamp. -/
def encodeDate (d : Nat) : String :=
  if d = 0 then "0" else String.mk (((natDigitsLE d d).map Nat.digitChar).reverse)

/-- Read a serialized date back to epoch milliseconds; the executable stand-in
for `new Date(s).getTime()` applied to the string `encodeDate` produced. -/
def decodeDate (s : String) : Nat :=
  s.data.foldl (fun acc c => 10 * acc + charToDigit c) 0

/-! ## Data model

Embedded from `src/services/frontend/src/types/index.ts` (adapter-era
document: `selectedRowIds`/`dismissedRecommendationIds` arrays) and
`src/services/frontend/src/lib/adapters/types.ts`.  Structures carrying
`Date` fields are parameterized by the date representation `δ`: `Nat`
(epoch ms) in memory, `String` in the JSON storage/wire image. -/

/-- A JSON-serializable value as held by the `any`-typed fields
(`rulePreview`, `LabelingAction.data`).  `jdate` models a JS `Date` object
living inside such a field — these occur in practice: `page.tsx` (lines
483–492, 779–785) stores `createRulePreview(...)` output, whose
`rule.createdAt`/`updatedAt` are `Date`s, into `dataState.rulePreview`, and
the debounced auto-save passes that full `dataState` to the adapters. -/
inductive JsonVal where
  | jnull : JsonVal
  | jbool : Bool → JsonVal
  | jnum : Int → JsonVal
  | jstr : String → JsonVal
  | jdate : Nat → JsonVal
  | jarr : List JsonVal → JsonVal
  | jobj : List (String × JsonVal) → JsonVal

mutual

/-- `JSON.stringify` on an `any`-typed JSON value: every `Date` anywhere in
the tree is serialized to its string form (`toJSON`).  `JSON.parse` performs
no inverse, and the adapters' `loadState` rebuilds dates only at the fixed
typed positions of the record — never inside these fields — so after a store
round trip the `jdate`s of such a field remain `jstr`s. -/
def JsonVal.serialize : JsonVal → JsonVal
  | .jnull => .jnull
  | .jbool b => .jbool b
  | .jnum n => .jnum n
  | .jstr s => .jstr s
  | .jdate d => .jstr (encodeDate d)
  | .jarr xs => .jarr (serializeJsonList xs)
  | .jobj fs => .jobj (serializeJsonObj fs)

def serializeJsonList : List JsonVal → List JsonVal
  | [] => []
  | x :: xs => JsonVal.serialize x :: serializeJsonList xs

def serializeJsonObj : List (String × JsonVal) → List (String × JsonVal)
  | [] => []
  | (k, v) :: fs => (k, JsonVal.serialize v) :: serializeJsonObj fs

end

/-- A cell of a `TransactionData` row: `string | number | null`
(`undefined`-valued keys are identified with absent keys, as JSON
serialization drops them). -/
inductive Cell where
  | str : String → Cell
  | num : Int → Cell
  | null : Cell
deriving DecidableEq

/-- `TransactionData`: a row with string keys and primitive values
(`id`, `label`, `labelConfidence` are ordinary keys of the row). -/
abbrev TransactionData := List (String × Cell)

/-- `Label` from `types/index.ts`; `createdAt` is a `Date`. -/
structure Label (δ : Type) where
  id : String
  name : String
  color : String
  description : Option String
  group : Option String
  createdAt : δ
  usageCount : Nat

/-- `LabelGroup` from `types/index.ts`; no `Date` fields. -/
structure LabelGroup where
  id : String
  name : String
  color : String
  description : Option String
  labels : List String
deriving DecidableEq

/-- `LabelingAction` from `types/index.ts`; `timestamp` is a `Date`, `data` is
`any` (JSON payload). -/
structure LabelingAction (δ : Type) where
  id : String
  type : String
  timestamp : δ
  rowIds : List String
  labelId : Option String
  previousLabelId : Option String
  data : Option JsonVal

/-- `Rule` from `types/index.ts` (adapter-era document: required `pattern`);
`createdAt` and `updatedAt` are `Date`s. -/
structure Rule (δ : Type) where
  id : String
  name : String
  description : Option String
  pattern : String
  labelId : Option String
  isActive : Bool
  createdAt : δ
  updatedAt : δ
  transactionIds : List String

/-- `ValidationReport` from `types/index.ts`; no `Date` fields. -/
structure ValidationReport where
  totalRows : Nat
  totalColumns : Nat
  missingValues : List (String × Nat)
  duplicateRows : Nat
  dataTypes : List (String × String)
  numericColumns : List String
  dateColumns : List String
  issues : List String
deriving DecidableEq

/-- `Recommendation` from the recommendation engine (`src/unnamed/part_009`);
no `Date` fields. -/
structure Recommendation where
  id : String
  rowId : String
  labelId : String
  confidence : Int
  reason : String
  matchedTransactions : List TransactionData
  algorithm : String
deriving DecidableEq

/-- `DataState` from `types/index.ts` (adapter-era document).  The `any`-typed
`rulePreview` is a JSON value (its `RulePreview` shape lives in
`lib/ruleEngine`, outside the frontend sources). -/
structure DataState (δ : Type) where
  data : Option (List TransactionData)
  fileName : Option String
  validationReport : Option ValidationReport
  isLoading : Bool
  labels : List (Label δ)
  labelGroups : List LabelGroup
  selectedRowIds : List String
  actionHistory : List (LabelingAction δ)
  currentHistoryIndex : Int
  isLabelingMode : Bool
  recommendations : List Recommendation
  isGeneratingRecommendations : Bool
  dismissedRecommendationIds : List String
  rulePreview : Option JsonVal
  isRuleModalOpen : Bool
  rules : List (Rule δ)
  isRuleManagerOpen : Bool
  currentTransaction : Option TransactionData

/-- `SessionMetadata` from `adapters/types.ts`; `lastModified` and the optional
`lastSyncedAt` are `Date`s, `storageType` is `'local' | 'backend' | 'hybrid'`,
`syncStatus` is `'synced' | 'pending' | 'conflict' | 'error'`. -/
structure SessionMetadata (δ : Type) where
  sessionId : String
  fileName : Option String
  lastModified : δ
  rowCount : Nat
  labelCount : Nat
  ruleCount : Nat
  storageType : String
  syncStatus : Option String
  lastSyncedAt : Option δ
  version : Option String
deriving DecidableEq

/-- `PersistedState` from `adapters/types.ts`. -/
structure PersistedState (δ : Type) where
  sessionId : String
  dataState : DataState δ
  activeTab : String
  metadata : SessionMetadata δ
  createdAt : δ
  updatedAt : δ

/-- `SyncResult` from `adapters/types.ts`; `timestamp` is produced from
`new Date()` so the operations below thread an explicit `now`. -/
structure SyncResult where
  success : Bool
  sessionId : String
  timestamp : Nat
  error : Option String
  metadata : Option (SessionMetadata Nat)
deriving DecidableEq

/-! ### Date-representation mapping

`X.mapDate f` applies `f` to exactly the `Date`-typed positions of `X` — the
positions `JSON.stringify` turns into strings and the adapters' `loadState`
rebuilds with `new Date(...)` (top-level `createdAt`/`updatedAt`,
`metadata.lastModified`/`lastSyncedAt`, `labels[].createdAt`,
`rules[].createdAt`/`updatedAt`, `actionHistory[].timestamp`). -/

def Label.mapDate (f : α → β) (l : Label α) : Label β :=
  { id := l.id, name := l.name, color := l.color, description := l.description,
    group := l.group, createdAt := f l.createdAt, usageCount := l.usageCount }

def LabelingAction.mapDate (f : α → β) (a : LabelingAction α) : LabelingAction β :=
  { id := a.id, type := a.type, timestamp := f a.timestamp, rowIds := a.rowIds,
    labelId := a.labelId, previousLabelId := a.previousLabelId, data := a.data }

def Rule.mapDate (f : α → β) (r : Rule α) : Rule β :=
  { id := r.id, name := r.name, description := r.description, pattern := r.pattern,
    labelId := r.labelId, isActive := r.isActive, createdAt := f r.createdAt,
    updatedAt := f r.updatedAt, transactionIds := r.transactionIds }

def SessionMetadata.mapDate (f : α → β) (m : SessionMetadata α) : SessionMetadata β :=
  { sessionId := m.sessionId, fileName := m.fileName, lastModified := f m.lastModified,
    rowCount := m.rowCount, labelCount := m.labelCount, ruleCount := m.ruleCount,
    storageType := m.storageType, syncStatus := m.syncStatus,
    lastSyncedAt := m.lastSyncedAt.map f, version := m.version }

def DataState.mapDate (f : α → β) (d : DataState α) : DataState β :=
  { data := d.data, fileName := d.fileName, validationReport := d.validationReport,
    isLoading := d.isLoading, labels := d.labels.map (Label.mapDate f),
    labelGroups := d.labelGroups, selectedRowIds := d.selectedRowIds,
    actionHistory := d.actionHistory.map (LabelingAction.mapDate f),
    currentHistoryIndex := d.currentHistoryIndex, isLabelingMode := d.isLabelingMode,
    recommendations := d.recommendations,
    isGeneratingRecommendations := d.isGeneratingRecommendations,
    dismissedRecommendationIds := d.dismissedRecommendationIds,
    rulePreview := d.rulePreview, isRuleModalOpen := d.isRuleModalOpen,
    rules := d.rules.map (Rule.mapDate f), isRuleManagerOpen := d.isRuleManagerOpen,
    currentTransaction := d.currentTransaction }

def PersistedState.mapDate (f : α → β) (p : PersistedState α) : PersistedState β :=
  { sessionId := p.sessionId, dataState := p.dataState.mapDate f,
    activeTab := p.activeTab, metadata := p.metadata.mapDate f,
    createdAt := f p.createdAt, updatedAt := f p.updatedAt }

/-- `JSON.stringify`'s effect on the `any`-typed JSON fields of an action:
`data` has its `Date`s serialized in place. -/
def LabelingAction.serializeData (a : LabelingAction α) : LabelingAction α :=
  { a with data := a.data.map JsonVal.serialize }

/-- `JSON.stringify`'s effect on the `any`-typed JSON fields of the payload:
`rulePreview` and each action's `data` have their `Date`s serialized in
place.  These are exactly the positions the adapters' `loadState` does not
rebuild. -/
def DataState.serializeJson (d : DataState α) : DataState α :=
  { d with rulePreview := d.rulePreview.map JsonVal.serialize,
           actionHistory := d.actionHistory.map LabelingAction.serializeData }

def PersistedState.serializeJson (p : PersistedState α) : PersistedState α :=
  { p with dataState := p.dataState.serializeJson }

/-- JSON image of a record (`JSON.stringify` behaviour): every `Date` is
serialized to a string — the typed date positions become the `String`
representation, and `Date`s inside the `any`-typed JSON fields become
`jstr`s. -/
def PersistedState.encode (p : PersistedState Nat) : PersistedState String :=
  p.serializeJson.mapDate encodeDate

/-- Reconstruction performed by the adapters' `loadState` (`part_006` lines
107–134, `part_008` lines 120–147): `new Date(...)` applied at exactly the
date positions of the parsed record. -/
def PersistedState.decode (p : PersistedState String) : PersistedState Nat :=
  p.mapDate decodeDate

/-! ## Key-value store primitives

`localStorage` (and every map keyed by strings below) is modelled as an
association list with unique keys: `assocFind` is `getItem`/`Map.get`,
`assocUpsert` is `setItem`/`Map.set` (replaces in place, appends new keys —
JS `Map` preserves first-insertion order on re-set). -/

def assocFind (k : String) : List (String × α) → Option α
  | [] => none
  | (k', v) :: rest => if k' = k then some v else assocFind k rest

def assocUpsert (k : String) (v : α) : List (String × α) → List (String × α)
  | [] => [(k, v)]
  | (k', v') :: rest => if k' = k then (k, v) :: rest else (k', v') :: assocUpsert k v rest

/-! ## Sorting

`Array.prototype.sort` with comparator `(a, b) => b.lastModified - a.lastModified`
(resp. the priority comparators) produces a list sorted under the corresponding
total preorder; modelled with `List.insertionSort`. -/

/-- Descending order on `lastModified`: `a` may precede `b` iff
`b.lastModified ≤ a.lastModified`. -/
def metaGE (a b : SessionMetadata Nat) : Prop := b.lastModified ≤ a.lastModified

instance : DecidableRel metaGE := fun a b =>
  inferInstanceAs (Decidable (b.lastModified ≤ a.lastModified))

instance : IsTotal (SessionMetadata Nat) metaGE :=
  ⟨fun a b => Nat.le_total b.lastModified a.lastModified⟩

instance : IsTrans (SessionMetadata Nat) metaGE :=
  ⟨fun _ _ _ h1 h2 => Nat.le_trans h2 h1⟩

/-- `sessions.sort((a, b) => b.lastModified.getTime() - a.lastModified.getTime())`. -/
def sortByLastModifiedDesc : List (SessionMetadata Nat) → List (SessionMetadata Nat) :=
  List.insertionSort metaGE

/-! ## On-device adapter (`LocalStorageAdapter`, `src/unnamed/part_006`)

The adapter's slice of `localStorage`: one record per session under
`data-labeler:session:<id>` (`sessions`), the session-id index under
`data-labeler:sessions` (`sessionList`), and the Active Session Pointer under
`data-labeler:active-session` (`activeSession`).  A stored record is either a
parseable JSON image (`StoredVal.ok`) or `corrupt` — a string `JSON.parse`
rejects or of the wrong shape.  Storage exceptions (quota) are not modelled;
the `catch`-and-return-failure paths of the source are unreachable here. -/

inductive StoredVal where
  | ok : PersistedState String → StoredVal
  | corrupt : StoredVal

structure LocalStore where
  sessions : List (String × StoredVal)
  sessionList : List String
  activeSession : Option String

def LocalStore.empty : LocalStore := { sessions := [], sessionList := [], activeSession := none }

/-- `LocalStorageAdapter.loadState` (part_006 lines 95–139): read the record,
parse, rebuild dates; a missing or unparseable record yields `null`, never a
thrown error. -/
def localLoadState (st : LocalStore) (sessionId : String) : Option (PersistedState Nat) :=
  match assocFind sessionId st.sessions with
  | none => none
  | some StoredVal.corrupt => none
  | some (StoredVal.ok sps) => some sps.decode

/-- Metadata `LocalStorageAdapter.saveState` derives for a save (lines 46–57). -/
def localSaveMetadata (sessionId : String) (dataState : DataState Nat) (now : Nat) :
    SessionMetadata Nat :=
  { sessionId := sessionId, fileName := dataState.fileName, lastModified := now,
    rowCount := (dataState.data.map List.length).getD 0,
    labelCount := dataState.labels.length, ruleCount := dataState.rules.length,
    storageType := "local", syncStatus := some "synced", lastSyncedAt := some now,
    version := some "1.0.0" }

/-- `LocalStorageAdapter.saveState` (lines 36–93): build the record (keeping an
existing record's `createdAt`), store its JSON image, keep the session-id index
consistent, set the Active Session Pointer, and report success. -/
def localSaveState (st : LocalStore) (now : Nat) (sessionId : String)
    (dataState : DataState Nat) (activeTab : String) : LocalStore × SyncResult :=
  let existingState := localLoadState st sessionId
  let metadata := localSaveMetadata sessionId dataState now
  let persistedState : PersistedState Nat :=
    { sessionId := sessionId, dataState := dataState, activeTab := activeTab,
      metadata := metadata,
      createdAt := (existingState.map PersistedState.createdAt).getD now,
      updatedAt := now }
  let sessions := assocUpsert sessionId (StoredVal.ok persistedState.encode) st.sessions
  let sessionList :=
    if st.sessionList.contains sessionId then st.sessionList
    else st.sessionList ++ [sessionId]
  ({ sessions := sessions, sessionList := sessionList, activeSession := some sessionId },
   { success := true, sessionId := sessionId, timestamp := now, error := none,
     metadata := some metadata })

/-- `LocalStorageAdapter.deleteSession` (lines 141–170): remove the record,
filter the index, clear the Active Session Pointer if it named this session;
always succeeds (deleting a non-existent session included). -/
def localDeleteSession (st : LocalStore) (now : Nat) (sessionId : String) :
    LocalStore × SyncResult :=
  let sessions := st.sessions.filter (fun kv => kv.1 ≠ sessionId)
  let sessionList := st.sessionList.filter (fun id => id ≠ sessionId)
  let activeSession := if st.activeSession = some sessionId then none else st.activeSession
  ({ sessions := sessions, sessionList := sessionList, activeSession := activeSession },
   { success := true, sessionId := sessionId, timestamp := now, error := none,
     metadata := none })

/-- `LocalStorageAdapter.listSessions` (lines 172–192): walk the session-id
index, load each record (skipping ids whose record is missing or unparseable),
and sort the collected metadata by `lastModified` descending. -/
def localListSessions (st : LocalStore) : List (SessionMetadata Nat) :=
  sortByLastModifiedDesc
    (st.sessionList.filterMap (fun sid => (localLoadState st sid).map PersistedState.metadata))

/-- `LocalStorageAdapter.hasSession` (lines 194–197): key presence only — it
does not attempt to parse the record. -/
def localHasSession (st : LocalStore) (sessionId : String) : Bool :=
  (assocFind sessionId st.sessions).isSome

/-- `LocalStorageAdapter.getActiveSessionId` (lines 199–201). -/
def localGetActiveSessionId (st : LocalStore) : Option String := st.activeSession

/-- `LocalStorageAdapter.clearAll` (lines 211–236): drop every indexed record,
the index and the active pointer. -/
def localClearAll (st : LocalStore) (now : Nat) : LocalStore × SyncResult :=
  let sessions := st.sessions.filter (fun kv => ¬ st.sessionList.contains kv.1)
  ({ sessions := sessions, sessionList := [], activeSession := none },
   { success := true, sessionId := "all", timestamp := now, error := none, metadata := none })

/-! ## Remote adapter (`BackendAdapter`, `src/unnamed/part_008`)

The adapter talks to the remote session service.  The service's handlers are
not part of the frontend sources; they are modelled from the spec (§3, §6)
where marked.  Network transport is abstracted by a `netOk : Bool` parameter —
`true` is a completed request, `false` a network-layer failure (the `catch` /
`response.error` paths).  The wire serialization is the same lossless
date-encode/decode pair proved above (`decodeDate_encodeDate`), so server-side
records are kept in decoded (`Nat`-date) form.  Each operation also returns the
adapter's updated `isOnline` flag. -/

structure BackendStore where
  sessions : List (String × PersistedState Nat)
  active : Option String

def BackendStore.empty : BackendStore := { sessions := [], active := none }

/-- Modelled from the spec: handler of `PUT/POST /sessions/{sessionId}` — the
remote service source is not under `src/`.  Per §3 it upserts the record,
fixing `createdAt` at first write and advancing `updatedAt`; per §6 the Active
Session Pointer is managed only by the dedicated `/sessions/active` endpoints,
so this handler leaves it untouched. -/
def serverPostSession (srv : BackendStore) (now : Nat) (sessionId : String)
    (dataState : DataState Nat) (activeTab : String) (metadata : SessionMetadata Nat) :
    BackendStore :=
  let createdAt :=
    match assocFind sessionId srv.sessions with
    | some existing => existing.createdAt
    | none => now
  { srv with
    sessions := assocUpsert sessionId
      { sessionId := sessionId, dataState := dataState, activeTab := activeTab,
        metadata := metadata, createdAt := createdAt, updatedAt := now }
      srv.sessions }

/-- Modelled from the spec: handler of `DELETE /sessions/{sessionId}` — remove
the record if present; §4.1: idempotent, deleting a non-existent session is a
success. -/
def serverDeleteSession (srv : BackendStore) (sessionId : String) : BackendStore :=
  { srv with sessions := srv.sessions.filter (fun kv => kv.1 ≠ sessionId) }

/-- Modelled from the spec: handler of `GET /sessions` — §4.1 requires the
metadata list sorted by `lastModified` descending. -/
def serverListSessions (srv : BackendStore) : List (SessionMetadata Nat) :=
  sortByLastModifiedDesc (srv.sessions.map (fun kv => kv.2.metadata))

/-- Metadata `BackendAdapter.saveState` derives for a save (part_008 lines
55–66). -/
def backendSaveMetadata (sessionId : String) (dataState : DataState Nat) (now : Nat) :
    SessionMetadata Nat :=
  { sessionId := sessionId, fileName := dataState.fileName, lastModified := now,
    rowCount := (dataState.data.map List.length).getD 0,
    labelCount := dataState.labels.length, ruleCount := dataState.rules.length,
    storageType := "backend", syncStatus := some "synced", lastSyncedAt := some now,
    version := some "1.0.0" }

/-- `BackendAdapter.saveState` (part_008 lines 46–105): POST the payload
`{sessionId, dataState, activeTab, metadata, type}` to `/sessions/{sessionId}`;
an error response flips `isOnline` off and returns a failed `SyncResult`, a
success flips it on and returns the derived metadata.  The posted body is the
JSON image: typed date positions cross the wire losslessly
(`decodeDate_encodeDate`) and are kept decoded in the model, while `Date`s
inside the `any`-typed JSON fields arrive serialized (`serializeJson`).  Note
the operation never touches the active-session pointer. -/
def backendSaveState (srv : BackendStore) (netOk : Bool) (now : Nat) (sessionId : String)
    (dataState : DataState Nat) (activeTab : String) :
    BackendStore × Bool × SyncResult :=
  let metadata := backendSaveMetadata sessionId dataState now
  if netOk then
    (serverPostSession srv now sessionId dataState.serializeJson activeTab metadata, true,
     { success := true, sessionId := sessionId, timestamp := now, error := none,
       metadata := some metadata })
  else
    (srv, false,
     { success := false, sessionId := sessionId, timestamp := now,
       error := some "Network error", metadata := none })

/-- `BackendAdapter.loadState` (lines 107–153): GET the record; error or no
data yields `null`, otherwise dates are rebuilt (the wire round trip, identity
in this model by `decodeDate_encodeDate`). -/
def backendLoadState (srv : BackendStore) (netOk : Bool) (sessionId : String) :
    Bool × Option (PersistedState Nat) :=
  if netOk then
    match assocFind sessionId srv.sessions with
    | some ps => (true, some ps)
    | none => (true, none)
  else (false, none)

/-- `BackendAdapter.deleteSession` (lines 155–184). -/
def backendDeleteSession (srv : BackendStore) (netOk : Bool) (now : Nat) (sessionId : String) :
    BackendStore × Bool × SyncResult :=
  if netOk then
    (serverDeleteSession srv sessionId, true,
     { success := true, sessionId := sessionId, timestamp := now, error := none,
       metadata := none })
  else
    (srv, false,
     { success := false, sessionId := sessionId, timestamp := now,
       error := some "Network error", metadata := none })

/-- `BackendAdapter.listSessions` (lines 186–208): an error yields the empty
list, never a thrown error. -/
def backendListSessions (srv : BackendStore) (netOk : Bool) :
    Bool × List (SessionMetadata Nat) :=
  if netOk then (true, serverListSessions srv) else (false, [])

/-! ## Sync orchestrator (`StateSync`, `statePersistence.ts` second document)

The orchestrator is generic over its registered adapters.  For one
orchestrator call, an adapter's observable behaviour is a record of its
identity (`name`, `priority`) and its responses: `saveAttempt i` is the
`SyncResult` of the `i`-th `saveState` call made during the operation (the
retry loop indexes into it), `loadResponse` the reply to `loadState`,
`deleteResult` the reply to `deleteSession`, `listResult` the reply to
`listSessions`. -/

structure AdapterBehavior where
  name : String
  priority : Int
  saveAttempt : Nat → SyncResult
  loadResponse : Option (PersistedState Nat)
  deleteResult : SyncResult
  listResult : List (SessionMetadata Nat)

/-- Strategy names are string literals in the source (`SyncStrategy`), erased
at runtime; the runtime configuration carries plain strings, which is what the
constructor stores without validation. -/
structure SyncConfig where
  strategy : String
  conflictResolution : String
  autoSync : Bool
  syncInterval : Option Nat
  retryAttempts : Nat
  retryDelay : Nat

/-- Descending priority: comparator `(a, b) => b.priority - a.priority`. -/
def adapterGE (a b : AdapterBehavior) : Prop := b.priority ≤ a.priority

/-- Ascending priority: comparator `(a, b) => a.priority - b.priority`. -/
def adapterLE (a b : AdapterBehavior) : Prop := a.priority ≤ b.priority

instance : DecidableRel adapterGE := fun a b => inferInstanceAs (Decidable (b.priority ≤ a.priority))

instance : DecidableRel adapterLE := fun a b => inferInstanceAs (Decidable (a.priority ≤ b.priority))

def sortByPriorityDesc : List AdapterBehavior → List AdapterBehavior :=
  List.insertionSort adapterGE

def sortByPriorityAsc : List AdapterBehavior → List AdapterBehavior :=
  List.insertionSort adapterLE

/-- `StateSync.getAdaptersByStrategy` (lines 595–611): order or filter the
registered adapters; `'hybrid'` shares the `default` branch, so every
unrecognized strategy string resolves to the priority-descending list. -/
def getAdaptersByStrategy (strategy : String) (adapters : List AdapterBehavior) :
    List AdapterBehavior :=
  match strategy with
  | "backend-first" => sortByPriorityDesc adapters
  | "local-first" => sortByPriorityAsc adapters
  | "backend-only" => adapters.filter (fun a => a.name = "backend")
  | "local-only" => adapters.filter (fun a => a.name = "localStorage")
  | _ => sortByPriorityDesc adapters

/-- JS `x || d` on an optional string: `undefined` and `""` are falsy. -/
def orFalsyStr (o : Option String) (d : String) : String :=
  match o with
  | none => d
  | some s => if s = "" then d else s

/-- JS `x || d` on an optional number: `undefined` and `0` are falsy. -/
def orFalsyNat (o : Option Nat) (d : Nat) : Nat :=
  match o with
  | none => d
  | some n => if n = 0 then d else n

/-- `StateSync.saveToAdapter` retry loop (lines 618–649): call the adapter up
to `retryAttempts` times, return the first success; once attempts are
exhausted return a failure carrying `lastError || 'Max retry attempts
reached'`. -/
def saveToAdapterGo (attempt : Nat → SyncResult) (sessionId : String) (now : Nat) :
    Nat → Nat → Option String → SyncResult
  | _, 0, lastError =>
    { success := false, sessionId := sessionId, timestamp := now,
      error := some (orFalsyStr lastError "Max retry attempts reached"), metadata := none }
  | i, remaining + 1, _ =>
    let result := attempt i
    if result.success then result
    else saveToAdapterGo attempt sessionId now (i + 1) remaining result.error

def saveToAdapter (cfg : SyncConfig) (a : AdapterBehavior) (sessionId : String) (now : Nat) :
    SyncResult :=
  saveToAdapterGo a.saveAttempt sessionId now 0 cfg.retryAttempts none

/-- The per-adapter results collected by `StateSync.saveState` (lines
335–377): write to each adapter in strategy order; under `backend-first` stop
once the backend adapter succeeds.  (Under `local-first` a successful local
write additionally queues a background backend push — `queueBackendSync`
below — which does not contribute to the results list.) -/
def saveLoop (cfg : SyncConfig) (sessionId : String) (now : Nat) :
    List AdapterBehavior → List SyncResult
  | [] => []
  | a :: rest =>
    let result := saveToAdapter cfg a sessionId now
    if cfg.strategy = "backend-first" ∧ a.name = "backend" ∧ result.success then [result]
    else result :: saveLoop cfg sessionId now rest

def saveStateResults (cfg : SyncConfig) (adapters : List AdapterBehavior)
    (sessionId : String) (now : Nat) : List SyncResult :=
  saveLoop cfg sessionId now (getAdaptersByStrategy cfg.strategy adapters)

/-- The value `StateSync.saveState` returns:
`results.find(r => r.success) || results[0]` (line 375); `none` models the
`undefined` of an empty results list. -/
def stateSyncSaveResult (cfg : SyncConfig) (adapters : List AdapterBehavior)
    (sessionId : String) (now : Nat) : Option SyncResult :=
  let results := saveStateResults cfg adapters sessionId now
  match results.find? (fun r => r.success) with
  | some r => some r
  | none => results.head?

/-- The states collected by `StateSync.loadState` (lines 382–391): each
configured adapter's reply, tagged with the adapter name, in strategy order. -/
def loadedStates (cfg : SyncConfig) (adapters : List AdapterBehavior) :
    List (String × PersistedState Nat) :=
  (getAdaptersByStrategy cfg.strategy adapters).filterMap
    (fun a => a.loadResponse.map (fun st => (a.name, st)))

/-- `StateSync.resolveConflict` (lines 739–764).  `'latest-wins'` shares the
`default` branch: a left fold keeping the record with the strictly greater
`updatedAt` (`curr.state.updatedAt > prev.state.updatedAt ? curr : prev`).
`'merge'` is the explicit placeholder returning the first state. -/
def resolveConflict (policy : String) (states : List (String × PersistedState Nat)) :
    Option (PersistedState Nat) :=
  match states with
  | [] => none
  | first :: rest =>
    match policy with
    | "backend-wins" => some (((states.find? (fun s => s.1 = "backend")).getD first).2)
    | "local-wins" => some (((states.find? (fun s => s.1 = "localStorage")).getD first).2)
    | "merge" => some first.2
    | _ =>
      some (rest.foldl
        (fun prev curr => if prev.2.updatedAt < curr.2.updatedAt then curr else prev)
        first).2

/-- `StateSync.loadState` (lines 382–404): no responding adapter → `null`;
exactly one → that state unconditionally; two or more → conflict resolution. -/
def stateSyncLoadState (cfg : SyncConfig) (adapters : List AdapterBehavior) :
    Option (PersistedState Nat) :=
  match loadedStates cfg adapters with
  | [] => none
  | [s] => some s.2
  | states => resolveConflict cfg.conflictResolution states

/-- `StateSync.deleteSession` (lines 409–425): delete from every adapter
(registration order, no strategy filter); success iff at least one adapter
succeeded, the error string populated only when all failed. -/
def aggregateDeleteResults (results : List SyncResult) (sessionId : String) (now : Nat) :
    SyncResult :=
  let success := results.any (fun r => r.success)
  { success := success, sessionId := sessionId, timestamp := now,
    error := if success then none else some "Failed to delete from all adapters",
    metadata := none }

def stateSyncDeleteSessionResult (adapters : List AdapterBehavior) (sessionId : String)
    (now : Nat) : SyncResult :=
  aggregateDeleteResults (adapters.map (fun a => a.deleteResult)) sessionId now

/-- One merge step of `StateSync.listSessions` (lines 435–440): keep the
first-seen entry per `sessionId` unless a strictly later `lastModified`
arrives (`session.lastModified > existing.lastModified`). -/
def mergeSessions (acc : List (String × SessionMetadata Nat)) :
    List (SessionMetadata Nat) → List (String × SessionMetadata Nat)
  | [] => acc
  | s :: rest =>
    match assocFind s.sessionId acc with
    | none => mergeSessions (acc ++ [(s.sessionId, s)]) rest
    | some existing =>
      if existing.lastModified < s.lastModified then
        mergeSessions (assocUpsert s.sessionId s acc) rest
      else mergeSessions acc rest

/-- `StateSync.listSessions` (lines 430–446): merge every adapter's list by
`sessionId` (keeping the latest `lastModified`), then sort the merged values
by `lastModified` descending. -/
def stateSyncListSessions (adapters : List AdapterBehavior) : List (SessionMetadata Nat) :=
  sortByLastModifiedDesc
    ((adapters.foldl (fun acc a => mergeSessions acc a.listResult) []).map (fun kv => kv.2))

/-- One timer tick of `StateSync.syncPendingChanges` (lines 691–707): with no
backend adapter registered the queue is untouched; otherwise each entry is
pushed once and removed exactly when its push succeeded (`pushOk` is the
success of `backend.saveState` for that entry). -/
def syncPendingChanges (hasBackend : Bool) (pushOk : String → PersistedState Nat → Bool)
    (pending : List (String × PersistedState Nat)) : List (String × PersistedState Nat) :=
  if hasBackend then pending.filter (fun e => ¬ pushOk e.1 e.2) else pending

/-- `StateSync.queueBackendSync` (lines 651–689): upsert the entry (at most
one pending entry per session — the latest write supersedes), then attempt one
opportunistic background push, deleting the entry only on success. -/
def queueBackendSync (hasBackend : Bool) (pushOk : Bool) (sessionId : String)
    (entry : PersistedState Nat) (pending : List (String × PersistedState Nat)) :
    List (String × PersistedState Nat) :=
  if hasBackend then
    let queued := assocUpsert sessionId entry pending
    if pushOk then queued.filter (fun e => e.1 ≠ sessionId) else queued
  else pending

/-- The orchestrator's own state: the registered adapters (a `Map` keyed by
`name`, insertion order), the resolved configuration, and the transient
pending-sync queue. -/
structure StateSync where
  adapters : List AdapterBehavior
  config : SyncConfig
  pendingSyncs : List (String × PersistedState Nat)

/-- `Map.set` on the adapter registry: re-registering a name replaces in
place. -/
def upsertByName (a : AdapterBehavior) : List AdapterBehavior → List AdapterBehavior
  | [] => [a]
  | b :: rest => if b.name = a.name then a :: rest else b :: upsertByName a rest

/-- `StateSyncConfig` (lines 299–302): every option may be absent. -/
structure StateSyncConfig where
  adapters : List AdapterBehavior
  strategy : Option String
  conflictResolution : Option String
  autoSync : Option Bool
  syncInterval : Option Nat
  retryAttempts : Option Nat
  retryDelay : Option Nat

/-- The `StateSync` constructor (lines 310–330): register the adapters and
fill configuration defaults (`||` for strings and numbers, `??` for the
boolean).  It is a total function — no validation of the strategy string
occurs, so construction never fails. -/
def mkStateSync (c : StateSyncConfig) : StateSync :=
  { adapters := c.adapters.foldl (fun acc a => upsertByName a acc) [],
    config :=
      { strategy := orFalsyStr c.strategy "local-first",
        conflictResolution := orFalsyStr c.conflictResolution "latest-wins",
        autoSync := c.autoSync.getD true,
        syncInterval := some (orFalsyNat c.syncInterval 30000),
        retryAttempts := orFalsyNat c.retryAttempts 3,
        retryDelay := orFalsyNat c.retryDelay 5000 },
    pendingSyncs := [] }

/-- `StateSync.deleteSession` as a transition on the orchestrator state: its
body (lines 409–425) calls each adapter's delete and aggregates the results;
it performs no mutation of the orchestrator's own fields — in particular the
pending-sync queue is left exactly as it was. -/
def StateSync.deleteSession (s : StateSync) (sessionId : String) (now : Nat) :
    StateSync × SyncResult :=
  (s, stateSyncDeleteSessionResult s.adapters sessionId now)

/-- The deployed composition (`createStateSync`, `src/unnamed/part_007`)
registers exactly `[LocalStorageAdapter, BackendAdapter]`; `deleteSession`
iterates them in registration order and aggregates the two results. -/
def orchDeleteSession (lst : LocalStore) (srv : BackendStore) (netOk : Bool)
    (sessionId : String) (now : Nat) : LocalStore × BackendStore × SyncResult :=
  let l := localDeleteSession lst now sessionId
  let b := backendDeleteSession srv netOk now sessionId
  (l.1, b.1, aggregateDeleteResults [l.2, b.2.2] sessionId now)

/-! ## Concrete fixtures for witnesses and counterexamples -/

/-- A `DataState` with every collection empty. -/
def emptyDataState : DataState Nat :=
  { data := none, fileName := none, validationReport := none, isLoading := false,
    labels := [], labelGroups := [], selectedRowIds := [], actionHistory := [],
    currentHistoryIndex := 0, isLabelingMode := false, recommendations := [],
    isGeneratingRecommendations := false, dismissedRecommendationIds := [],
    rulePreview := none, isRuleModalOpen := false, rules := [],
    isRuleManagerOpen := false, currentTransaction := none }

/-- A record for session `sid` written at time `t`. -/
def psAt (sid : String) (t : Nat) : PersistedState Nat :=
  { sessionId := sid, dataState := emptyDataState, activeTab := "labeling",
    metadata := localSaveMetadata sid emptyDataState t, createdAt := t, updatedAt := t }

def sampleLabel : Label Nat :=
  { id := "l1", name := "Food", color := "#ef4444", description := some "meals",
    group := none, createdAt := 11, usageCount := 2 }

def sampleRule : Rule Nat :=
  { id := "r1", name := "coffee", description := none, pattern := "coffee",
    labelId := some "l1", isActive := true, createdAt := 12, updatedAt := 13,
    transactionIds := ["row1"] }

def sampleAction : LabelingAction Nat :=
  { id := "a1", type := "label", timestamp := 14, rowIds := ["row1"],
    labelId := some "l1", previousLabelId := none, data := none }

def sampleRow : TransactionData :=
  [("id", Cell.str "row1"), ("amount", Cell.num 42), ("merchant", Cell.str "cafe")]

/-- A populated `DataState` exercising every date-carrying collection. -/
def sampleDataState : DataState Nat :=
  { data := some [sampleRow], fileName := some "tx.csv", validationReport := none,
    isLoading := false, labels := [sampleLabel], labelGroups := [],
    selectedRowIds := ["row1"], actionHistory := [sampleAction],
    currentHistoryIndex := 0, isLabelingMode := true, recommendations := [],
    isGeneratingRecommendations := false, dismissedRecommendationIds := [],
    rulePreview := none, isRuleModalOpen := false, rules := [sampleRule],
    isRuleManagerOpen := false, currentTransaction := none }

/-- A `SyncResult` placeholder for behaviour fields a scenario never exercises. -/
def noResult : SyncResult :=
  { success := false, sessionId := "", timestamp := 0, error := none, metadata := none }

def okResult (sid : String) (now : Nat) : SyncResult :=
  { success := true, sessionId := sid, timestamp := now, error := none, metadata := none }

def failResult (sid err : String) (now : Nat) : SyncResult :=
  { success := false, sessionId := sid, timestamp := now, error := some err, metadata := none }

/-- An inert adapter behaviour with the given identity. -/
def mkBeh (name : String) (priority : Int) : AdapterBehavior :=
  { name := name, priority := priority, saveAttempt := fun _ => noResult,
    loadResponse := none, deleteResult := noResult, listResult := [] }

def localBeh : AdapterBehavior := mkBeh "localStorage" 1

def backendBeh : AdapterBehavior := mkBeh "backend" 10

def localFailBeh : AdapterBehavior :=
  { mkBeh "localStorage" 1 with saveAttempt := fun _ => failResult "s1" "local boom" 0 }

def backendFailBeh : AdapterBehavior :=
  { mkBeh "backend" 10 with saveAttempt := fun _ => failResult "s1" "backend boom" 0 }

def localOkBeh : AdapterBehavior :=
  { mkBeh "localStorage" 1 with saveAttempt := fun _ => okResult "s1" 0 }

def cfgLocalFirst : SyncConfig :=
  { strategy := "local-first", conflictResolution := "latest-wins", autoSync := true,
    syncInterval := some 30000, retryAttempts := 3, retryDelay := 5000 }

/-- Store whose index names `s1` but whose record is unparseable. -/
def corruptRecordStore : LocalStore :=
  { sessions := [("s1", StoredVal.corrupt)], sessionList := ["s1"], activeSession := none }

/-- Store whose index names `s1` but holds no record for it. -/
def missingRecordStore : LocalStore :=
  { sessions := [], sessionList := ["s1"], activeSession := none }

/-- Store holding a well-formed record for `s2` that the index does not name. -/
def unindexedRecordStore : LocalStore :=
  { sessions := [("s2", StoredVal.ok (psAt "s2" 7).encode)], sessionList := [],
    activeSession := none }

/-- Backend service state whose active pointer names another session. -/
def srvWithOtherActive : BackendStore :=
  { sessions := [], active := some "other-session" }

/-- A `rulePreview` value of the shape `createRulePreview` produces: the rule
carries `Date`-valued `createdAt`/`updatedAt` fields. -/
def datedRulePreview : JsonVal :=
  JsonVal.jobj
    [("rule", JsonVal.jobj
        [("name", JsonVal.jstr "coffee"),
         ("createdAt", JsonVal.jdate 12),
         ("updatedAt", JsonVal.jdate 12)]),
     ("matchingTransactions", JsonVal.jarr [])]

/-- A payload as `page.tsx` auto-saves it while a rule preview is open. -/
def datedPreviewDataState : DataState Nat :=
  { emptyDataState with rulePreview := some datedRulePreview }

/-- An orchestrator configuration carrying a strategy string outside the
recognized set. -/
def cfgUnknownStrategy : StateSyncConfig :=
  { adapters := [localBeh, backendBeh], strategy := some "not-a-strategy",
    conflictResolution := none, autoSync := none, syncInterval := none,
    retryAttempts := none, retryDelay := none }

/-! ## Round-trip and store lemmas -/

theorem valueLE_natDigitsLE : ∀ fuel n, n ≤ fuel → valueLE (natDigitsLE fuel n) = n := by
  intro fuel
  induction fuel with
  | zero =>
    intro n h
    have hn : n = 0 := Nat.le_zero.mp h
    simp [natDigitsLE, valueLE, hn]
  | succ k ih =>
    intro n h
    by_cases hn : n = 0
    · simp [natDigitsLE, valueLE, hn]
    · have hdiv : n / 10 ≤ k := by
        have h1 : n / 10 < n := Nat.div_lt_self (Nat.pos_of_ne_zero hn) (by omega)
        omega
      simp only [natDigitsLE, hn, if_false, valueLE, ih (n / 10) hdiv]
      omega

theorem natDigitsLE_lt_ten : ∀ fuel n d, d ∈ natDigitsLE fuel n → d < 10 := by
  intro fuel
  induction fuel with
  | zero => intro n d hd; simp [natDigitsLE] at hd
  | succ k ih =>
    intro n d hd
    by_cases hn : n = 0
    · simp [natDigitsLE, hn] at hd
    · simp only [natDigitsLE, hn, if_false, List.mem_cons] at hd
      rcases hd with hd | hd
      · omega
      · exact ih _ _ hd

theorem charToDigit_digitChar : ∀ d, d < 10 → charToDigit (Nat.digitChar d) = d := by decide

theorem foldr_digitChar_eq_valueLE :
    ∀ L : List Nat, (∀ d ∈ L, d < 10) →
      List.foldr (fun c acc => 10 * acc + charToDigit c) 0 (L.map Nat.digitChar) = valueLE L := by
  intro L
  induction L with
  | nil => intro _; simp [valueLE]
  | cons d ds ih =>
    intro hlt
    have hd : d < 10 := hlt d (List.mem_cons_self d ds)
    have hds : ∀ x ∈ ds, x < 10 := fun x hx => hlt x (List.mem_cons_of_mem d hx)
    simp only [List.map_cons, List.foldr_cons, ih hds, charToDigit_digitChar d hd, valueLE]
    omega

/-- The date encode/decode pair used by the storage model is lossless: the model
of `new Date(d.toJSON()).getTime() = d.getTime()`. -/
theorem decodeDate_encodeDate (d : Nat) : decodeDate (encodeDate d) = d := by
  by_cases hd : d = 0
  · subst hd; decide
  · have hdata : (encodeDate d).data = ((natDigitsLE d d).map Nat.digitChar).reverse := by
      simp [encodeDate, hd]
    rw [decodeDate, hdata, List.foldl_reverse]
    have hlt : ∀ x ∈ natDigitsLE d d, x < 10 := fun x hx => natDigitsLE_lt_ten d d x hx
    calc List.foldr (fun x y => 10 * y + charToDigit x) 0 ((natDigitsLE d d).map Nat.digitChar)
        = valueLE (natDigitsLE d d) := foldr_digitChar_eq_valueLE _ hlt
      _ = d := valueLE_natDigitsLE d d (Nat.le_refl d)

theorem labelMapDate_roundtrip (l : Label Nat) :
    Label.mapDate decodeDate (Label.mapDate encodeDate l) = l := by
  cases l
  simp [Label.mapDate, decodeDate_encodeDate]

theorem actionMapDate_roundtrip (a : LabelingAction Nat) :
    LabelingAction.mapDate decodeDate (LabelingAction.mapDate encodeDate a) = a := by
  cases a
  simp [LabelingAction.mapDate, decodeDate_encodeDate]

theorem ruleMapDate_roundtrip (r : Rule Nat) :
    Rule.mapDate decodeDate (Rule.mapDate encodeDate r) = r := by
  cases r
  simp [Rule.mapDate, decodeDate_encodeDate]

theorem metadataMapDate_roundtrip (m : SessionMetadata Nat) :
    SessionMetadata.mapDate decodeDate (SessionMetadata.mapDate encodeDate m) = m := by
  cases m with
  | mk sid fn lm rc lc rlc st ss lsa v =>
    cases lsa <;> simp [SessionMetadata.mapDate, decodeDate_encodeDate]

theorem list_map_roundtrip {α β : Type} (enc : α → β) (dec : β → α)
    (h : ∀ x, dec (enc x) = x) (l : List α) : (l.map enc).map dec = l := by
  rw [List.map_map]
  simp [Function.comp_def, h]

theorem dataStateMapDate_roundtrip (d : DataState Nat) :
    DataState.mapDate decodeDate (DataState.mapDate encodeDate d) = d := by
  cases d
  simp [DataState.mapDate,
    list_map_roundtrip _ _ labelMapDate_roundtrip,
    list_map_roundtrip _ _ actionMapDate_roundtrip,
    list_map_roundtrip _ _ ruleMapDate_roundtrip]

theorem persistedMapDate_roundtrip (q : PersistedState Nat) :
    PersistedState.mapDate decodeDate (PersistedState.mapDate encodeDate q) = q := by
  cases q
  simp [PersistedState.mapDate, dataStateMapDate_roundtrip, metadataMapDate_roundtrip,
    decodeDate_encodeDate]

/-- The storage round trip of a record: the typed date positions are rebuilt
exactly (the date encode/decode pair is lossless), while the `any`-typed JSON
fields keep the form `JSON.stringify` gave them — `Date`s inside them stay
strings.  The round trip is the identity precisely on records whose JSON
fields contain no `Date`s. -/
theorem PersistedState.decode_encode (p : PersistedState Nat) :
    p.encode.decode = p.serializeJson :=
  persistedMapDate_roundtrip p.serializeJson

theorem assocFind_upsert_self (k : String) (v : α) :
    ∀ l : List (String × α), assocFind k (assocUpsert k v l) = some v := by
  intro l
  induction l with
  | nil => simp [assocUpsert, assocFind]
  | cons hd tl ih =>
    by_cases h : hd.1 = k
    · simp [assocUpsert, assocFind, h]
    · simp [assocUpsert, assocFind, h, ih]

theorem sortByLastModifiedDesc_sorted (l : List (SessionMetadata Nat)) :
    List.Sorted metaGE (sortByLastModifiedDesc l) :=
  List.sorted_insertionSort metaGE l

theorem filter_idem (p : α → Bool) (l : List α) : (l.filter p).filter p = l.filter p := by
  induction l with
  | nil => rfl
  | cons x xs ih =>
    by_cases hx : p x
    · simp [List.filter_cons, hx, ih]
    · simp [List.filter_cons, hx, ih]

theorem filterMap_skip_none {β : Type} {f : String → Option β} {a : String} (hf : f a = none) :
    ∀ l : List String, l.filterMap f = (l.filter (fun x => x ≠ a)).filterMap f := by
  intro l
  induction l with
  | nil => rfl
  | cons x xs ih =>
    by_cases hx : x = a
    · subst hx
      simp [List.filterMap_cons, List.filter_cons, hf, ih]
    · cases hfx : f x <;>
        simp [List.filterMap_cons, List.filter_cons, hx, hfx, ih]

theorem saveToAdapterGo_all_fail (attempt : Nat → SyncResult) (sid : String) (now : Nat)
    (h : ∀ i, (attempt i).success = false) :
    ∀ remaining i lastError,
      (saveToAdapterGo attempt sid now i remaining lastError).success = false := by
  intro remaining
  induction remaining with
  | zero => intro i lastError; rfl
  | succ k ih =>
    intro i lastError
    simp only [saveToAdapterGo, h i, if_false, Bool.false_eq_true]
    exact ih (i + 1) (attempt i).error

theorem saveLoop_all_fail (cfg : SyncConfig) (sid : String) (now : Nat) :
    ∀ l : List AdapterBehavior, (∀ a ∈ l, ∀ i, (a.saveAttempt i).success = false) →
      saveLoop cfg sid now l = l.map (fun a => saveToAdapter cfg a sid now) := by
  intro l
  induction l with
  | nil => intro _; rfl
  | cons a rest ih =>
    intro h
    have ha : (saveToAdapter cfg a sid now).success = false :=
      saveToAdapterGo_all_fail a.saveAttempt sid now
        (h a (List.mem_cons_self a rest)) cfg.retryAttempts 0 none
    have hrest : ∀ b ∈ rest, ∀ i, (b.saveAttempt i).success = false :=
      fun b hb => h b (List.mem_cons_of_mem a hb)
    simp [saveLoop, ha, ih hrest]

/-! ## Claims -/

/-- C10: the orchestrator's `deleteSession` reports success exactly when at
least one adapter's delete succeeded, and populates its error field only when
every adapter failed — a delete failing on one of several adapters is still
reported as a success. -/
theorem c10_delete_aggregation (adapters : List AdapterBehavior) (sessionId : String)
    (now : Nat) :
    ((stateSyncDeleteSessionResult adapters sessionId now).success = true ↔
      ∃ a ∈ adapters, a.deleteResult.success = true) ∧
    ((stateSyncDeleteSessionResult adapters sessionId now).error = none ↔
      (stateSyncDeleteSessionResult adapters sessionId now).success = true) := by
  constructor
  · simp [stateSyncDeleteSessionResult, aggregateDeleteResults, List.any_eq_true]
  · by_cases h : (adapters.map (fun a => a.deleteResult)).any (fun r => r.success)
    · simp [stateSyncDeleteSessionResult, aggregateDeleteResults, h]
    · simp [stateSyncDeleteSessionResult, aggregateDeleteResults, h]

/-- C10 witness: with a failing local delete and a succeeding backend delete,
the orchestrator still reports success with no error. -/
theorem c10_witness :
    (stateSyncDeleteSessionResult
      [{ localBeh with deleteResult := failResult "s1" "local delete boom" 0 },
       { backendBeh with deleteResult := okResult "s1" 0 }] "s1" 0).success = true ∧
    (stateSyncDeleteSessionResult
      [{ localBeh with deleteResult := failResult "s1" "local delete boom" 0 },
       { backendBeh with deleteResult := okResult "s1" 0 }] "s1" 0).error = none := by
  refine ⟨(c10_delete_aggregation _ "s1" 0).1.mpr ?_, (c10_delete_aggregation _ "s1" 0).2.mpr ?_⟩
  · exact ⟨{ backendBeh with deleteResult := okResult "s1" 0 }, by simp, rfl⟩
  · exact (c10_delete_aggregation _ "s1" 0).1.mpr
      ⟨{ backendBeh with deleteResult := okResult "s1" 0 }, by simp, rfl⟩

/-- C9: `deleteSession` is idempotent.  For every store state and every
sessionId — including one with no record on any adapter — the deployed
two-adapter orchestrator returns `success = true`, and deleting the same
session twice leaves both underlying stores exactly as deleting it once. -/
theorem c9_delete_idempotent (lst : LocalStore) (srv : BackendStore) (netOk : Bool)
    (sessionId : String) (now now' : Nat) :
    ((orchDeleteSession lst srv netOk sessionId now).2.2.success = true) ∧
    ((orchDeleteSession (orchDeleteSession lst srv netOk sessionId now).1
        (orchDeleteSession lst srv netOk sessionId now).2.1 netOk sessionId now').1 =
      (orchDeleteSession lst srv netOk sessionId now).1) ∧
    ((orchDeleteSession (orchDeleteSession lst srv netOk sessionId now).1
        (orchDeleteSession lst srv netOk sessionId now).2.1 netOk sessionId now').2.1 =
      (orchDeleteSession lst srv netOk sessionId now).2.1) := by
  refine ⟨rfl, ?_, ?_⟩
  · have hact : (if lst.activeSession = some sessionId then none else lst.activeSession) ≠
        some sessionId := by
      by_cases h : lst.activeSession = some sessionId <;> simp [h]
    simp [orchDeleteSession, localDeleteSession, filter_idem, hact]
  · cases netOk with
    | false => rfl
    | true =>
      simp [orchDeleteSession, backendDeleteSession, serverDeleteSession, filter_idem]

/-- C9 witness: deleting a session that exists nowhere succeeds, and a second
delete of a present session changes nothing further. -/
theorem c9_witness :
    ((orchDeleteSession LocalStore.empty BackendStore.empty true "missing-id" 0).2.2.success
      = true) ∧
    ((orchDeleteSession (orchDeleteSession LocalStore.empty BackendStore.empty true
        "missing-id" 0).1
        (orchDeleteSession LocalStore.empty BackendStore.empty true "missing-id" 0).2.1
        true "missing-id" 1).1 =
      (orchDeleteSession LocalStore.empty BackendStore.empty true "missing-id" 0).1) :=
  ⟨(c9_delete_idempotent LocalStore.empty BackendStore.empty true "missing-id" 0 1).1,
   (c9_delete_idempotent LocalStore.empty BackendStore.empty true "missing-id" 0 1).2.1⟩

/-- C2: a queued Pending Sync Entry is removed only by a successful backend
push: a reconciliation tick keeps exactly the entries whose push failed, any
sequence of all-failing ticks leaves the queue unchanged, and the
orchestrator's `deleteSession` body never mutates the queue (so no sequence of
failed pushes — with or without interleaved deletes — drops an entry). -/
theorem c2_pending_retention :
    (∀ (pushOk : String → PersistedState Nat → Bool) pending
       (e : String × PersistedState Nat),
       e ∈ syncPendingChanges true pushOk pending ↔
         (e ∈ pending ∧ pushOk e.1 e.2 = false)) ∧
    (∀ (ticks : List (String → PersistedState Nat → Bool)) pending,
       (∀ f ∈ ticks, ∀ sid ps, f sid ps = false) →
       ticks.foldl (fun q f => syncPendingChanges true f q) pending = pending) ∧
    (∀ (s : StateSync) sessionId now,
       ((StateSync.deleteSession s sessionId now).1).pendingSyncs = s.pendingSyncs) := by
  refine ⟨?_, ?_, fun _ _ _ => rfl⟩
  · intro pushOk pending e
    simp [syncPendingChanges, List.mem_filter]
  · intro ticks
    induction ticks with
    | nil => intro pending _; rfl
    | cons f rest ih =>
      intro pending h
      have hf : syncPendingChanges true f pending = pending := by
        simp only [syncPendingChanges, if_true]
        exact List.filter_eq_self.mpr
          (fun e _ => by simp [h f (List.mem_cons_self f rest) e.1 e.2])
      simp only [List.foldl_cons, hf]
      exact ih pending (fun g hg => h g (List.mem_cons_of_mem f hg))

/-- C2 witness: a pending entry survives two consecutive all-failing ticks and
an orchestrator delete call leaves the queue as it was. -/
theorem c2_witness :
    (("s1", psAt "s1" 5) ∈
      syncPendingChanges true (fun _ _ => false) [("s1", psAt "s1" 5)]) ∧
    ([fun _ _ => false, fun _ _ => false].foldl
        (fun q f => syncPendingChanges true f q) [("s1", psAt "s1" 5)] =
      [("s1", psAt "s1" 5)]) ∧
    ((StateSync.deleteSession
        { adapters := [localBeh, backendBeh], config := cfgLocalFirst,
          pendingSyncs := [("s1", psAt "s1" 5)] } "s1" 0).1.pendingSyncs =
      [("s1", psAt "s1" 5)]) :=
  ⟨c2_pending_retention.1 (fun _ _ => false) [("s1", psAt "s1" 5)] ("s1", psAt "s1" 5)
      |>.mpr ⟨List.mem_singleton.mpr rfl, rfl⟩,
   c2_pending_retention.2.1 [fun _ _ => false, fun _ _ => false] [("s1", psAt "s1" 5)]
      (by
        intro f hf sid ps
        rcases List.mem_cons.mp hf with rfl | hf2
        · rfl
        · rcases List.mem_cons.mp hf2 with rfl | h
          · rfl
          · cases h),
   c2_pending_retention.2.2 _ "s1" 0⟩

theorem foldl_mergeSessions_nil :
    ∀ (adapters : List AdapterBehavior) acc, (∀ a ∈ adapters, a.listResult = []) →
      adapters.foldl (fun acc a => mergeSessions acc a.listResult) acc = acc := by
  intro adapters
  induction adapters with
  | nil => intro acc _; rfl
  | cons a rest ih =>
    intro acc h
    have ha : a.listResult = [] := h a (List.mem_cons_self a rest)
    simp only [List.foldl_cons, ha]
    exact ih acc (fun b hb => h b (List.mem_cons_of_mem a hb))

/-- C8: every listing — the on-device adapter's, the remote adapter's, and the
orchestrator's merged view — is sorted by `lastModified` descending for every
state of the underlying stores (any insertion order of records), and an empty
store yields the empty list, not an error. -/
theorem c8_list_sorted :
    (∀ st : LocalStore, List.Sorted metaGE (localListSessions st)) ∧
    (localListSessions LocalStore.empty = []) ∧
    (∀ (srv : BackendStore) (netOk : Bool),
      List.Sorted metaGE (backendListSessions srv netOk).2) ∧
    ((backendListSessions BackendStore.empty true).2 = []) ∧
    (∀ adapters : List AdapterBehavior, List.Sorted metaGE (stateSyncListSessions adapters)) ∧
    (∀ adapters : List AdapterBehavior, (∀ a ∈ adapters, a.listResult = []) →
      stateSyncListSessions adapters = []) := by
  refine ⟨fun st => sortByLastModifiedDesc_sorted _, rfl, ?_, rfl,
    fun adapters => sortByLastModifiedDesc_sorted _, ?_⟩
  · intro srv netOk
    cases netOk with
    | false => exact List.sorted_nil
    | true => exact sortByLastModifiedDesc_sorted _
  · intro adapters h
    simp [stateSyncListSessions, foldl_mergeSessions_nil adapters [] h, sortByLastModifiedDesc,
      List.insertionSort]

/-- C8 witness: a local store holding two records inserted oldest-first lists
them sorted, and the merged view of two adapters with no sessions is empty. -/
theorem c8_witness :
    List.Sorted metaGE (localListSessions
      { sessions := [("a", StoredVal.ok (psAt "a" 10).encode),
                     ("b", StoredVal.ok (psAt "b" 20).encode)],
        sessionList := ["a", "b"], activeSession := none }) ∧
    stateSyncListSessions [localBeh, backendBeh] = [] :=
  ⟨c8_list_sorted.1 _,
   c8_list_sorted.2.2.2.2.2 [localBeh, backendBeh] (by
     intro a ha
     rcases List.mem_cons.mp ha with rfl | ha2
     · rfl
     · rcases List.mem_cons.mp ha2 with rfl | h
       · rfl
       · cases h)⟩

/-- C3 counterexample: a payload whose `rulePreview` holds the
`createRulePreview` shape — with `Date`-valued `rule.createdAt`/`updatedAt`,
as `page.tsx` stores and auto-saves — does not round-trip exactly: the loaded
`rulePreview` carries the serialized strings where the saved payload held
`Date`s, refuting "payload … exactly what was saved". -/
theorem c3_counterexample :
    ((localLoadState (localSaveState LocalStore.empty 1000 "s1" datedPreviewDataState
        "labeling").1 "s1").map (fun ps => ps.dataState.rulePreview) =
      some (some (JsonVal.jobj
        [("rule", JsonVal.jobj
            [("name", JsonVal.jstr "coffee"),
             ("createdAt", JsonVal.jstr "12"),
             ("updatedAt", JsonVal.jstr "12")]),
         ("matchingTransactions", JsonVal.jarr [])]))) ∧
    ((localLoadState (localSaveState LocalStore.empty 1000 "s1" datedPreviewDataState
        "labeling").1 "s1").map (fun ps => ps.dataState.rulePreview) ≠
      some (some datedRulePreview)) := by
  refine ⟨rfl, ?_⟩
  intro h
  have h1 : (localLoadState (localSaveState LocalStore.empty 1000 "s1" datedPreviewDataState
      "labeling").1 "s1").map (fun ps => ps.dataState.rulePreview) =
      some (some (JsonVal.jobj
        [("rule", JsonVal.jobj
            [("name", JsonVal.jstr "coffee"),
             ("createdAt", JsonVal.jstr "12"),
             ("updatedAt", JsonVal.jstr "12")]),
         ("matchingTransactions", JsonVal.jarr [])])) := rfl
  rw [h1] at h
  simp [datedRulePreview] at h

/-- C3 (amended): saving a freshly constructed session through the on-device
adapter and loading the same sessionId returns a record whose `sessionId` and
`activeTab` are exactly what was saved and whose payload is the saved payload
with `Date`s inside the `any`-typed JSON fields (`rulePreview`, an action's
`data`) replaced by their serialized strings — every typed collection and its
timestamps are reconstructed exactly, so the payload is exactly what was saved
whenever those JSON fields hold no `Date` values; the metadata and envelope
timestamps are derived from the save time. -/
theorem c3_save_load_roundtrip (st : LocalStore) (sessionId activeTab : String)
    (dataState : DataState Nat) (now : Nat)
    (hfresh : localLoadState st sessionId = none) :
    ((localSaveState st now sessionId dataState activeTab).2.success = true) ∧
    (localLoadState (localSaveState st now sessionId dataState activeTab).1 sessionId =
      some { sessionId := sessionId, dataState := dataState.serializeJson,
             activeTab := activeTab,
             metadata := localSaveMetadata sessionId dataState now,
             createdAt := now, updatedAt := now }) ∧
    (dataState.serializeJson = dataState →
      localLoadState (localSaveState st now sessionId dataState activeTab).1 sessionId =
        some { sessionId := sessionId, dataState := dataState, activeTab := activeTab,
               metadata := localSaveMetadata sessionId dataState now,
               createdAt := now, updatedAt := now }) := by
  have hmain : localLoadState (localSaveState st now sessionId dataState activeTab).1
      sessionId =
      some { sessionId := sessionId, dataState := dataState.serializeJson,
             activeTab := activeTab,
             metadata := localSaveMetadata sessionId dataState now,
             createdAt := now, updatedAt := now } := by
    simp only [localSaveState, hfresh, Option.map_none', Option.getD_none]
    simp [localLoadState, assocFind_upsert_self, PersistedState.decode_encode,
      PersistedState.serializeJson]
  refine ⟨rfl, hmain, fun h => ?_⟩
  rw [hmain, h]

/-- C3 witness: the round trip at an empty store for a populated `DataState`
exercising rows, labels, rules and action history, whose JSON fields are
date-free — the payload comes back exactly. -/
theorem c3_witness :
    ((localSaveState LocalStore.empty 1000 "s1" sampleDataState "labeling").2.success = true) ∧
    (localLoadState (localSaveState LocalStore.empty 1000 "s1" sampleDataState "labeling").1
        "s1" =
      some { sessionId := "s1", dataState := sampleDataState, activeTab := "labeling",
             metadata := localSaveMetadata "s1" sampleDataState 1000,
             createdAt := 1000, updatedAt := 1000 }) :=
  ⟨(c3_save_load_roundtrip LocalStore.empty "s1" "labeling" sampleDataState 1000 rfl).1,
   (c3_save_load_roundtrip LocalStore.empty "s1" "labeling" sampleDataState 1000 rfl).2.2
     rfl⟩

/-- C4: under the `latest-wins` policy, when the adapters' replies for a
session hold two records with `updatedAt` `t1 < t2`, the orchestrator's
`loadState` returns the `t2` record for either ordering of the adapter query
list. -/
theorem c4_latest_wins (cfg : SyncConfig) (adapters : List AdapterBehavior)
    (a b : PersistedState Nat) (n1 n2 : String)
    (hpol : cfg.conflictResolution = "latest-wins")
    (hab : a.updatedAt < b.updatedAt)
    (h : loadedStates cfg adapters = [(n1, a), (n2, b)] ∨
         loadedStates cfg adapters = [(n1, b), (n2, a)]) :
    stateSyncLoadState cfg adapters = some b := by
  have hnab : ¬ (b.updatedAt < a.updatedAt) := by omega
  rcases h with h | h <;>
    simp [stateSyncLoadState, h, resolveConflict, hpol, hab, hnab]

/-- C4 witness: local adapter replying with the `t = 100` record and the
backend with the `t = 200` record under `local-first` query order yields the
`t = 200` record. -/
theorem c4_witness :
    stateSyncLoadState cfgLocalFirst
      [{ localBeh with loadResponse := some (psAt "s2" 100) },
       { backendBeh with loadResponse := some (psAt "s2" 200) }] =
      some (psAt "s2" 200) :=
  c4_latest_wins cfgLocalFirst _ (psAt "s2" 100) (psAt "s2" 200) "localStorage" "backend"
    rfl (by decide) (Or.inl rfl)

/-- C5 counterexample: a successful remote save leaves the remote active
pointer untouched, so immediately after a successful
`BackendAdapter.saveState("s1", ...)` the adapter's Active Session Pointer can
still name a different session — the claim fails for the remote adapter. -/
theorem c5_counterexample :
    ((backendSaveState srvWithOtherActive true 500 "s1" emptyDataState "labeling").2.2.success
      = true) ∧
    ((backendSaveState srvWithOtherActive true 500 "s1" emptyDataState "labeling").1.active =
      some "other-session") ∧
    (some "other-session" ≠ (some "s1" : Option String)) :=
  ⟨rfl, rfl, by decide⟩

/-- C5 (amended): the on-device adapter sets its Active Session Pointer to the
saved sessionId on every (always successful) save, while the remote adapter's
`saveState` never modifies the remote active pointer — success or failure. -/
theorem c5_active_pointer :
    (∀ (st : LocalStore) now sessionId dataState activeTab,
      ((localSaveState st now sessionId dataState activeTab).2.success = true) ∧
      ((localSaveState st now sessionId dataState activeTab).1.activeSession =
        some sessionId)) ∧
    (∀ (srv : BackendStore) netOk now sessionId dataState activeTab,
      (backendSaveState srv netOk now sessionId dataState activeTab).1.active = srv.active) := by
  refine ⟨fun st now sid ds tab => ⟨rfl, rfl⟩, ?_⟩
  intro srv netOk now sid ds tab
  cases netOk <;> rfl

/-- C5 witness: concrete instances of both halves. -/
theorem c5_witness :
    ((localSaveState LocalStore.empty 500 "s1" emptyDataState "labeling").1.activeSession =
      some "s1") ∧
    ((backendSaveState srvWithOtherActive true 500 "s1" emptyDataState "labeling").1.active =
      srvWithOtherActive.active) :=
  ⟨(c5_active_pointer.1 LocalStore.empty 500 "s1" emptyDataState "labeling").2,
   c5_active_pointer.2 srvWithOtherActive true 500 "s1" emptyDataState "labeling"⟩

/-- C6 counterexample: for the record-present/index-missing corruption the
operations do not treat the session as absent — `loadState` returns the
record and `hasSession` reports it (only `listSessions` omits it); and for an
unparseable record `hasSession` still reports presence.  No operation resets
the index entry. -/
theorem c6_counterexample :
    (localLoadState unindexedRecordStore "s2" = some (psAt "s2" 7)) ∧
    (localHasSession unindexedRecordStore "s2" = true) ∧
    (localListSessions unindexedRecordStore = []) ∧
    (localHasSession corruptRecordStore "s1" = true) ∧
    (localLoadState corruptRecordStore "s1" = none) ∧
    (localListSessions corruptRecordStore = []) := by
  refine ⟨?_, rfl, rfl, rfl, rfl, rfl⟩
  have h : localLoadState unindexedRecordStore "s2" =
      some (psAt "s2" 7).encode.decode := rfl
  rw [h, PersistedState.decode_encode]
  rfl

/-- C6 (amended): a sessionId in the index whose record is missing or
unparseable is treated as absent by `loadState` and skipped by `listSessions`
(no crash is possible — every operation is total), but the stale index entry
is not reset; conversely, a well-formed record absent from the index is still
returned by `loadState` and reported by `hasSession`, and an unparseable
record is still reported by `hasSession` (it checks key presence only). -/
theorem c6_corruption_behaviour :
    (∀ (st : LocalStore) sessionId,
      (assocFind sessionId st.sessions = none ∨
       assocFind sessionId st.sessions = some StoredVal.corrupt) →
      localLoadState st sessionId = none ∧
      localListSessions st =
        localListSessions
          { st with sessionList := st.sessionList.filter (fun x => x ≠ sessionId) }) ∧
    (∀ (st : LocalStore) sessionId ps,
      assocFind sessionId st.sessions = some (StoredVal.ok ps) →
      localLoadState st sessionId = some ps.decode ∧
      localHasSession st sessionId = true) ∧
    (∀ (st : LocalStore) sessionId,
      assocFind sessionId st.sessions = some StoredVal.corrupt →
      localHasSession st sessionId = true) := by
  refine ⟨?_, ?_, ?_⟩
  · intro st sid h
    have hload : localLoadState st sid = none := by
      rcases h with h | h <;> simp [localLoadState, h]
    refine ⟨hload, ?_⟩
    have hf : (fun s => (localLoadState st s).map PersistedState.metadata) sid = none := by
      simp [hload]
    exact congrArg sortByLastModifiedDesc (filterMap_skip_none hf st.sessionList)
  · intro st sid ps h
    exact ⟨by simp [localLoadState, h], by simp [localHasSession, h]⟩
  · intro st sid h
    simp [localHasSession, h]

/-- C6 witness: concrete instances — index-without-record (both corrupt and
missing) and record-without-index. -/
theorem c6_witness :
    (localLoadState corruptRecordStore "s1" = none ∧
     localListSessions corruptRecordStore =
       localListSessions
         { corruptRecordStore with
            sessionList := corruptRecordStore.sessionList.filter (fun x => x ≠ "s1") }) ∧
    (localLoadState missingRecordStore "s1" = none) ∧
    (localLoadState unindexedRecordStore "s2" = some (psAt "s2" 7).encode.decode ∧
     localHasSession unindexedRecordStore "s2" = true) :=
  ⟨c6_corruption_behaviour.1 corruptRecordStore "s1" (Or.inr rfl),
   (c6_corruption_behaviour.1 missingRecordStore "s1" (Or.inl rfl)).1,
   c6_corruption_behaviour.2.1 unindexedRecordStore "s2" (psAt "s2" 7).encode rfl⟩

/-- C7 counterexample: the constructor accepts a strategy outside the
recognized set without any error — the orchestrator is built, stores the
unknown string, and at runtime `getAdaptersByStrategy` silently handles it
through the default branch (the same ordering as `hybrid`). -/
theorem c7_counterexample :
    ((mkStateSync cfgUnknownStrategy).config.strategy = "not-a-strategy") ∧
    ((mkStateSync cfgUnknownStrategy).adapters = [localBeh, backendBeh]) ∧
    (getAdaptersByStrategy "not-a-strategy" [localBeh, backendBeh] =
      [backendBeh, localBeh]) ∧
    (getAdaptersByStrategy "hybrid" [localBeh, backendBeh] = [backendBeh, localBeh]) :=
  ⟨rfl, rfl, rfl, rfl⟩

/-- C7 (amended): construction with an unrecognized (non-empty) strategy
string succeeds — the string is stored verbatim in the configuration — and at
runtime every adapter resolution for it takes the default branch, the
priority-descending ordering shared with `hybrid`. -/
theorem c7_unknown_strategy (s : String) (hne : s ≠ "")
    (h1 : s ≠ "backend-first") (h2 : s ≠ "local-first") (h3 : s ≠ "backend-only")
    (h4 : s ≠ "local-only") (h5 : s ≠ "hybrid") :
    (∀ c : StateSyncConfig, c.strategy = some s → (mkStateSync c).config.strategy = s) ∧
    (∀ adapters, getAdaptersByStrategy s adapters = sortByPriorityDesc adapters) := by
  constructor
  · intro c hc
    simp [mkStateSync, hc, orFalsyStr, hne]
  · intro adapters
    unfold getAdaptersByStrategy
    split <;> simp_all

/-- C7 witness: the amended behaviour at the concrete strategy `"bogus"`. -/
theorem c7_witness :
    ((mkStateSync
        { adapters := [localBeh, backendBeh], strategy := some "bogus",
          conflictResolution := none, autoSync := none, syncInterval := none,
          retryAttempts := none, retryDelay := none }).config.strategy = "bogus") ∧
    (getAdaptersByStrategy "bogus" [localBeh, backendBeh] =
      sortByPriorityDesc [localBeh, backendBeh]) :=
  ⟨(c7_unknown_strategy "bogus" (by decide) (by decide) (by decide) (by decide) (by decide)
      (by decide)).1 _ rfl,
   (c7_unknown_strategy "bogus" (by decide) (by decide) (by decide) (by decide) (by decide)
      (by decide)).2 [localBeh, backendBeh]⟩

/-- C1 counterexample: with both adapters failing every attempt under
`local-first`, `saveState` returns the FIRST adapter's failure result
(`results[0]`, error "local boom"), not the last adapter's (error
"backend boom") — refuting the all-fail half of the claim. -/
theorem c1_counterexample :
    (stateSyncSaveResult cfgLocalFirst [localFailBeh, backendFailBeh] "s1" 0 =
      some (saveToAdapter cfgLocalFirst localFailBeh "s1" 0)) ∧
    ((saveToAdapter cfgLocalFirst localFailBeh "s1" 0).error = some "local boom") ∧
    ((saveToAdapter cfgLocalFirst backendFailBeh "s1" 0).error = some "backend boom") ∧
    (stateSyncSaveResult cfgLocalFirst [localFailBeh, backendFailBeh] "s1" 0 ≠
      some (saveToAdapter cfgLocalFirst backendFailBeh "s1" 0)) := by decide

/-- C1 (amended): `saveState` returns the first successful adapter result in
strategy order; if every adapter's write fails, it returns the FIRST adapter's
failure result (each per-adapter result being the post-retry failure). -/
theorem c1_save_result (cfg : SyncConfig) (adapters : List AdapterBehavior)
    (sessionId : String) (now : Nat) :
    (∀ r, (saveStateResults cfg adapters sessionId now).find? (fun x => x.success) = some r →
      stateSyncSaveResult cfg adapters sessionId now = some r) ∧
    ((∀ a ∈ getAdaptersByStrategy cfg.strategy adapters, ∀ i,
        (a.saveAttempt i).success = false) →
      (stateSyncSaveResult cfg adapters sessionId now =
        (getAdaptersByStrategy cfg.strategy adapters).head?.map
          (fun a => saveToAdapter cfg a sessionId now)) ∧
      (∀ a ∈ getAdaptersByStrategy cfg.strategy adapters,
        (saveToAdapter cfg a sessionId now).success = false)) := by
  constructor
  · intro r h
    simp [stateSyncSaveResult, h]
  · intro h
    have hfail : ∀ a ∈ getAdaptersByStrategy cfg.strategy adapters,
        (saveToAdapter cfg a sessionId now).success = false :=
      fun a ha => saveToAdapterGo_all_fail a.saveAttempt sessionId now (h a ha)
        cfg.retryAttempts 0 none
    have hres : saveStateResults cfg adapters sessionId now =
        (getAdaptersByStrategy cfg.strategy adapters).map
          (fun a => saveToAdapter cfg a sessionId now) :=
      saveLoop_all_fail cfg sessionId now _ h
    refine ⟨?_, hfail⟩
    have hnone : (saveStateResults cfg adapters sessionId now).find?
        (fun x => x.success) = none := by
      rw [hres]
      refine List.find?_eq_none.mpr ?_
      intro x hx
      rcases List.mem_map.mp hx with ⟨a, ha, rfl⟩
      simp [hfail a ha]
    have hstep : stateSyncSaveResult cfg adapters sessionId now =
        (saveStateResults cfg adapters sessionId now).head? := by
      simp only [stateSyncSaveResult]
      rw [hnone]
    rw [hstep, hres, List.head?_map]

/-- C1 witness: the first-success half with a succeeding local adapter, and
the all-fail half with both adapters failing. -/
theorem c1_witness :
    (stateSyncSaveResult cfgLocalFirst [localOkBeh, backendFailBeh] "s1" 0 =
      some (saveToAdapter cfgLocalFirst localOkBeh "s1" 0)) ∧
    (stateSyncSaveResult cfgLocalFirst [localFailBeh, backendFailBeh] "s1" 0 =
      (getAdaptersByStrategy "local-first" [localFailBeh, backendFailBeh]).head?.map
        (fun a => saveToAdapter cfgLocalFirst a "s1" 0)) :=
  ⟨(c1_save_result cfgLocalFirst [localOkBeh, backendFailBeh] "s1" 0).1 _ (by decide),
   ((c1_save_result cfgLocalFirst [localFailBeh, backendFailBeh] "s1" 0).2 (by
      intro a ha i
      have hord : getAdaptersByStrategy cfgLocalFirst.strategy
          [localFailBeh, backendFailBeh] = [localFailBeh, backendFailBeh] := rfl
      rw [hord] at ha
      rcases List.mem_cons.mp ha with rfl | ha2
      · rfl
      · rcases List.mem_cons.mp ha2 with rfl | hx
        · rfl
        · cases hx)).1⟩

end Labeler
